import Mathlib

/-!
Verification of the out-of-band diagnostic recorder
(`packages/compiler-cli/src/ngtsc/typecheck/src/oob.ts`).

The recorder collects template diagnostics that are not produced by the
underlying type checker.  We embed the data model and the six reporting
operations of `OutOfBandDiagnosticRecorderImpl` shallowly: the mutable
`_diagnostics` array becomes explicit state passing, a `throw` becomes the
`Except.error` component of the result, and every operation returns both its
control-flow outcome and the recorder state after the call (on a throw the
recorder object is left as it was, exactly as in the source, where the
`throw` happens before the `push`).
-/

namespace Oob

/-- Opaque template type-checking identifier (`TemplateId` from `../api`). -/
abbrev TemplateId := String

/-- A span in the original source file, as used to anchor diagnostics
(`ParseSourceSpan` of the template AST; we keep only its extent). -/
structure ParseSourceSpan where
  start : Nat
  stop : Nat
  deriving DecidableEq, Repr

/-- A template-expression-relative span (`AbsoluteSourceSpan`), which must be
translated by the resolver before it can anchor a diagnostic. -/
structure AbsoluteSourceSpan where
  start : Nat
  stop : Nat
  deriving DecidableEq, Repr

/-- Per-template source-mapping context returned by the resolver; opaque to
the recorder, which only threads it through to diagnostic construction. -/
abbrev SourceMapping := Nat

/-- The `TemplateSourceResolver` contract from `./diagnostics` (external to
the fragment): `getSourceMapping` is total, `toParseSourceSpan` may fail
(`null` in the source becomes `none`). -/
structure TemplateSourceResolver where
  getSourceMapping : TemplateId → SourceMapping
  toParseSourceSpan : TemplateId → AbsoluteSourceSpan → Option ParseSourceSpan

/-- `TmplAstReference`: a `#ref` in a template. `valueSpan` is optional in the
AST (`ParseSourceSpan|undefined`); `ref.valueSpan || ref.sourceSpan` in the
source is `Option.getD` here, since spans are objects and hence truthy. -/
structure TmplAstReference where
  value : String
  valueSpan : Option ParseSourceSpan
  sourceSpan : ParseSourceSpan
  deriving DecidableEq, Repr

/-- `BindingPipe`: a `| pipe` invocation with its name and name span. -/
structure BindingPipe where
  name : String
  nameSpan : AbsoluteSourceSpan
  deriving DecidableEq, Repr

/-- `PropertyWrite`: an assignment expression with its target name and span. -/
structure PropertyWrite where
  name : String
  sourceSpan : AbsoluteSourceSpan
  deriving DecidableEq, Repr

/-- `TmplAstVariable`: a template variable declaration; `valueSpan` optional. -/
structure TmplAstVariable where
  name : String
  valueSpan : Option ParseSourceSpan
  sourceSpan : ParseSourceSpan
  deriving DecidableEq, Repr

/-- `ClassDeclaration` as the recorder uses it: its `name` identifier node,
modelled by the display name plus the declaration location of that node, and
its source file (`node.getSourceFile()`). -/
structure ClassDeclaration where
  name : String
  nameSpan : ParseSourceSpan
  sourceFile : String
  deriving DecidableEq, Repr

/-- The error codes used by this file (subset of `ErrorCode` from
`../../diagnostics`, external to the fragment). -/
inductive ErrorCode where
  | MISSING_REFERENCE_TARGET
  | MISSING_PIPE
  | WRITE_TO_READ_ONLY_VARIABLE
  | DUPLICATE_VARIABLE_DECLARATION
  | INLINE_TCB_REQUIRED
  | INLINE_TYPE_CTOR_REQUIRED
  deriving DecidableEq, Repr

/-- The numeric value of each error code, from `../../diagnostics`. -/
def ErrorCode.value : ErrorCode → Nat
  | .MISSING_REFERENCE_TARGET => 8003
  | .MISSING_PIPE => 8004
  | .WRITE_TO_READ_ONLY_VARIABLE => 8005
  | .DUPLICATE_VARIABLE_DECLARATION => 8006
  | .INLINE_TCB_REQUIRED => 8900
  | .INLINE_TYPE_CTOR_REQUIRED => 8901

/-- Modelled from the spec: `ngErrorCode` (external, `../../diagnostics`)
yields the negative `-99xxxx` numeric code attached to every record. -/
def ngErrorCode (code : ErrorCode) : Int :=
  -(990000 + (code.value : Int))

/-- `ts.DiagnosticCategory`; this subsystem only ever uses `Error`. -/
inductive DiagnosticCategory where
  | Warning
  | Error
  | Suggestion
  | Message
  deriving DecidableEq, Repr

/-- A secondary annotation: an independent (message, location) pair pointing
at a related declaration. -/
structure RelatedInfo where
  text : String
  span : ParseSourceSpan
  deriving DecidableEq, Repr

/-- The diagnostic record accumulated by the recorder, with the fields the
spec gives for a `DiagnosticRecord`: template identifier, category, stable
error code, primary anchor, message, and secondary annotations. -/
structure TemplateDiagnostic where
  templateId : TemplateId
  category : DiagnosticCategory
  code : Int
  span : ParseSourceSpan
  messageText : String
  relatedInformation : List RelatedInfo
  deriving DecidableEq, Repr

/-- Modelled from the spec: `makeRelatedInformation(node, messageText)` from
`../../diagnostics` (external to the fragment) builds a secondary annotation
anchored at the given node's location. -/
def makeRelatedInformation (nodeSpan : ParseSourceSpan) (messageText : String) :
    RelatedInfo :=
  { text := messageText, span := nodeSpan }

/-- Modelled from the spec: `makeTemplateDiagnostic` from `../diagnostics`
(external to the fragment) builds one record from a template id, the source
mapping, a primary span, category, code, message and an optional single
related message `{text, span}`.  The mapping is consumed only for rendering
and is not a field of the record the spec describes. -/
def makeTemplateDiagnostic (templateId : TemplateId) (_mapping : SourceMapping)
    (span : ParseSourceSpan) (category : DiagnosticCategory) (code : Int)
    (messageText : String) (relatedMessage : Option RelatedInfo) :
    TemplateDiagnostic :=
  { templateId := templateId
    category := category
    code := code
    span := span
    messageText := messageText
    relatedInformation :=
      match relatedMessage with
      | some r => [r]
      | none => [] }

/-- `makeInlineDiagnostic` (bottom of `oob.ts`): spreads
`makeDiagnostic(code, node, messageText, relatedInformation)` — which anchors
at `node` with category `Error` and numeric code `ngErrorCode(code)` — and
adds the component file and template id. -/
def makeInlineDiagnostic (templateId : TemplateId) (code : ErrorCode)
    (nodeSpan : ParseSourceSpan) (messageText : String)
    (relatedInformation : List RelatedInfo) : TemplateDiagnostic :=
  { templateId := templateId
    category := DiagnosticCategory.Error
    code := ngErrorCode code
    span := nodeSpan
    messageText := messageText
    relatedInformation := relatedInformation }

/-- `OutOfBandDiagnosticRecorderImpl`: the injected resolver plus the private
`_diagnostics` array. -/
structure OutOfBandDiagnosticRecorderImpl where
  resolver : TemplateSourceResolver
  _diagnostics : List TemplateDiagnostic

/-- The constructor: `_diagnostics` starts as the empty array. -/
def mkRecorder (resolver : TemplateSourceResolver) :
    OutOfBandDiagnosticRecorderImpl :=
  { resolver := resolver, _diagnostics := [] }

/-- The `diagnostics` getter: a read-only view of `_diagnostics`. -/
def OutOfBandDiagnosticRecorderImpl.diagnostics
    (self : OutOfBandDiagnosticRecorderImpl) : List TemplateDiagnostic :=
  self._diagnostics

/-- `missingReferenceTarget(templateId, ref)`. -/
def OutOfBandDiagnosticRecorderImpl.missingReferenceTarget
    (self : OutOfBandDiagnosticRecorderImpl) (templateId : TemplateId)
    (ref : TmplAstReference) :
    Except String Unit × OutOfBandDiagnosticRecorderImpl :=
  let mapping := self.resolver.getSourceMapping templateId
  let value := ref.value.trim
  let errorMsg := "No directive found with exportAs '" ++ value ++ "'."
  (Except.ok (),
    { self with
      _diagnostics := self._diagnostics ++
        [makeTemplateDiagnostic templateId mapping
          (ref.valueSpan.getD ref.sourceSpan) DiagnosticCategory.Error
          (ngErrorCode ErrorCode.MISSING_REFERENCE_TARGET) errorMsg none] })

/-- `missingPipe(templateId, ast)`: throws when the resolver cannot translate
the pipe's name span; the throw happens before any push. -/
def OutOfBandDiagnosticRecorderImpl.missingPipe
    (self : OutOfBandDiagnosticRecorderImpl) (templateId : TemplateId)
    (ast : BindingPipe) :
    Except String Unit × OutOfBandDiagnosticRecorderImpl :=
  let mapping := self.resolver.getSourceMapping templateId
  let errorMsg := "No pipe found with name '" ++ ast.name ++ "'."
  match self.resolver.toParseSourceSpan templateId ast.nameSpan with
  | none =>
    (Except.error
      ("Assertion failure: no SourceLocation found for usage of pipe '" ++
        ast.name ++ "'."), self)
  | some sourceSpan =>
    (Except.ok (),
      { self with
        _diagnostics := self._diagnostics ++
          [makeTemplateDiagnostic templateId mapping sourceSpan
            DiagnosticCategory.Error (ngErrorCode ErrorCode.MISSING_PIPE)
            errorMsg none] })

/-- `illegalAssignmentToTemplateVar(templateId, assignment, target)`: throws
when the resolver cannot translate the assignment's span; otherwise appends a
record with one related message naming `assignment.name` (without quotes),
anchored at `target.valueSpan || target.sourceSpan`. -/
def OutOfBandDiagnosticRecorderImpl.illegalAssignmentToTemplateVar
    (self : OutOfBandDiagnosticRecorderImpl) (templateId : TemplateId)
    (assignment : PropertyWrite) (target : TmplAstVariable) :
    Except String Unit × OutOfBandDiagnosticRecorderImpl :=
  let mapping := self.resolver.getSourceMapping templateId
  let errorMsg := "Cannot use variable '" ++ assignment.name ++
    "' as the left-hand side of an assignment expression. Template variables are read-only."
  match self.resolver.toParseSourceSpan templateId assignment.sourceSpan with
  | none =>
    (Except.error
      "Assertion failure: no SourceLocation found for property binding.", self)
  | some sourceSpan =>
    (Except.ok (),
      { self with
        _diagnostics := self._diagnostics ++
          [makeTemplateDiagnostic templateId mapping sourceSpan
            DiagnosticCategory.Error
            (ngErrorCode ErrorCode.WRITE_TO_READ_ONLY_VARIABLE) errorMsg
            (some
              { text := "The variable " ++ assignment.name ++
                  " is declared here."
                span := target.valueSpan.getD target.sourceSpan })] })

/-- `duplicateTemplateVar(templateId, variable, firstDecl)`: anchors at the
variable's own `sourceSpan` directly, with no resolver translation. -/
def OutOfBandDiagnosticRecorderImpl.duplicateTemplateVar
    (self : OutOfBandDiagnosticRecorderImpl) (templateId : TemplateId)
    (v : TmplAstVariable) (firstDecl : TmplAstVariable) :
    Except String Unit × OutOfBandDiagnosticRecorderImpl :=
  let mapping := self.resolver.getSourceMapping templateId
  let errorMsg := "Cannot redeclare variable '" ++ v.name ++
    "' as it was previously declared elsewhere for the same template."
  (Except.ok (),
    { self with
      _diagnostics := self._diagnostics ++
        [makeTemplateDiagnostic templateId mapping v.sourceSpan
          DiagnosticCategory.Error
          (ngErrorCode ErrorCode.DUPLICATE_VARIABLE_DECLARATION) errorMsg
          (some
            { text := "The variable '" ++ firstDecl.name ++
                "' was first declared here."
              span := firstDecl.sourceSpan })] })

/-- `requiresInlineTcb(templateId, node)`: an inline diagnostic anchored at
the class's own name node; the resolver is not consulted. -/
def OutOfBandDiagnosticRecorderImpl.requiresInlineTcb
    (self : OutOfBandDiagnosticRecorderImpl) (templateId : TemplateId)
    (node : ClassDeclaration) :
    Except String Unit × OutOfBandDiagnosticRecorderImpl :=
  (Except.ok (),
    { self with
      _diagnostics := self._diagnostics ++
        [makeInlineDiagnostic templateId ErrorCode.INLINE_TCB_REQUIRED
          node.nameSpan
          "This component requires inline template type-checking, which is not supported by the current environment."
          []] })

/-- `requiresInlineTypeConstructors(templateId, node, directives)`: plural
wording when `directives.length > 1`, singular otherwise; one related
message per directive, anchored at that directive's name node. -/
def OutOfBandDiagnosticRecorderImpl.requiresInlineTypeConstructors
    (self : OutOfBandDiagnosticRecorderImpl) (templateId : TemplateId)
    (node : ClassDeclaration) (directives : List ClassDeclaration) :
    Except String Unit × OutOfBandDiagnosticRecorderImpl :=
  let message :=
    if directives.length > 1 then
      "This component uses directives which require inline type constructors, which are not supported by the current environment."
    else
      "This component uses a directive which requires an inline type constructor, which is not supported by the current environment."
  (Except.ok (),
    { self with
      _diagnostics := self._diagnostics ++
        [makeInlineDiagnostic templateId ErrorCode.INLINE_TYPE_CTOR_REQUIRED
          node.nameSpan message
          (directives.map
            (fun dir =>
              makeRelatedInformation dir.nameSpan
                "Requires an inline type constructor."))] })

/-- A single invocation of one of the six reporting operations, with its
arguments: the alphabet over which "any sequence of reporting calls" ranges. -/
inductive OobCall where
  | missingReferenceTarget (templateId : TemplateId) (ref : TmplAstReference)
  | missingPipe (templateId : TemplateId) (ast : BindingPipe)
  | illegalAssignmentToTemplateVar (templateId : TemplateId)
      (assignment : PropertyWrite) (target : TmplAstVariable)
  | duplicateTemplateVar (templateId : TemplateId) (v : TmplAstVariable)
      (firstDecl : TmplAstVariable)
  | requiresInlineTcb (templateId : TemplateId) (node : ClassDeclaration)
  | requiresInlineTypeConstructors (templateId : TemplateId)
      (node : ClassDeclaration) (directives : List ClassDeclaration)

/-- The template id argument of a reporting call. -/
def OobCall.templateIdOf : OobCall → TemplateId
  | .missingReferenceTarget templateId _ => templateId
  | .missingPipe templateId _ => templateId
  | .illegalAssignmentToTemplateVar templateId _ _ => templateId
  | .duplicateTemplateVar templateId _ _ => templateId
  | .requiresInlineTcb templateId _ => templateId
  | .requiresInlineTypeConstructors templateId _ _ => templateId

/-- Dispatch one reporting call against the recorder. -/
def applyCall (rec : OutOfBandDiagnosticRecorderImpl) :
    OobCall → Except String Unit × OutOfBandDiagnosticRecorderImpl
  | .missingReferenceTarget templateId ref =>
    rec.missingReferenceTarget templateId ref
  | .missingPipe templateId ast => rec.missingPipe templateId ast
  | .illegalAssignmentToTemplateVar templateId assignment target =>
    rec.illegalAssignmentToTemplateVar templateId assignment target
  | .duplicateTemplateVar templateId v firstDecl =>
    rec.duplicateTemplateVar templateId v firstDecl
  | .requiresInlineTcb templateId node => rec.requiresInlineTcb templateId node
  | .requiresInlineTypeConstructors templateId node directives =>
    rec.requiresInlineTypeConstructors templateId node directives

/-- The record a call appends under a given resolver (`none` when the call
throws instead).  The record depends only on the resolver and the call's
arguments, never on the diagnostics accumulated so far. -/
def emitted (res : TemplateSourceResolver) : OobCall → Option TemplateDiagnostic
  | .missingReferenceTarget templateId ref =>
    some
      (makeTemplateDiagnostic templateId (res.getSourceMapping templateId)
        (ref.valueSpan.getD ref.sourceSpan) DiagnosticCategory.Error
        (ngErrorCode ErrorCode.MISSING_REFERENCE_TARGET)
        ("No directive found with exportAs '" ++ ref.value.trim ++ "'.") none)
  | .missingPipe templateId ast =>
    (res.toParseSourceSpan templateId ast.nameSpan).map
      (fun sourceSpan =>
        makeTemplateDiagnostic templateId (res.getSourceMapping templateId)
          sourceSpan DiagnosticCategory.Error
          (ngErrorCode ErrorCode.MISSING_PIPE)
          ("No pipe found with name '" ++ ast.name ++ "'.") none)
  | .illegalAssignmentToTemplateVar templateId assignment target =>
    (res.toParseSourceSpan templateId assignment.sourceSpan).map
      (fun sourceSpan =>
        makeTemplateDiagnostic templateId (res.getSourceMapping templateId)
          sourceSpan DiagnosticCategory.Error
          (ngErrorCode ErrorCode.WRITE_TO_READ_ONLY_VARIABLE)
          ("Cannot use variable '" ++ assignment.name ++
            "' as the left-hand side of an assignment expression. Template variables are read-only.")
          (some
            { text := "The variable " ++ assignment.name ++
                " is declared here."
              span := target.valueSpan.getD target.sourceSpan }))
  | .duplicateTemplateVar templateId v firstDecl =>
    some
      (makeTemplateDiagnostic templateId (res.getSourceMapping templateId)
        v.sourceSpan DiagnosticCategory.Error
        (ngErrorCode ErrorCode.DUPLICATE_VARIABLE_DECLARATION)
        ("Cannot redeclare variable '" ++ v.name ++
          "' as it was previously declared elsewhere for the same template.")
        (some
          { text := "The variable '" ++ firstDecl.name ++
              "' was first declared here."
            span := firstDecl.sourceSpan }))
  | .requiresInlineTcb templateId node =>
    some
      (makeInlineDiagnostic templateId ErrorCode.INLINE_TCB_REQUIRED
        node.nameSpan
        "This component requires inline template type-checking, which is not supported by the current environment."
        [])
  | .requiresInlineTypeConstructors templateId node directives =>
    some
      (makeInlineDiagnostic templateId ErrorCode.INLINE_TYPE_CTOR_REQUIRED
        node.nameSpan
        (if directives.length > 1 then
          "This component uses directives which require inline type constructors, which are not supported by the current environment."
        else
          "This component uses a directive which requires an inline type constructor, which is not supported by the current environment.")
        (directives.map
          (fun dir =>
            makeRelatedInformation dir.nameSpan
              "Requires an inline type constructor.")))

/-- Run a sequence of reporting calls left to right; a throw aborts the run
(the partially filled recorder is discarded by the caller, as in the source). -/
def runCalls (rec : OutOfBandDiagnosticRecorderImpl) :
    List OobCall → Except String OutOfBandDiagnosticRecorderImpl
  | [] => Except.ok rec
  | c :: cs =>
    match applyCall rec c with
    | (Except.ok _, rec') => runCalls rec' cs
    | (Except.error e, _) => Except.error e

/-- A call either succeeds and appends exactly the `emitted` record, or
throws and leaves the recorder unchanged (and `emitted` is `none`). -/
theorem applyCall_cases (rec : OutOfBandDiagnosticRecorderImpl) (c : OobCall) :
    (∃ d, emitted rec.resolver c = some d ∧
        applyCall rec c =
          (Except.ok (),
            { rec with _diagnostics := rec._diagnostics ++ [d] })) ∨
      (∃ e, emitted rec.resolver c = none ∧
        applyCall rec c = (Except.error e, rec)) := by
  cases c with
  | missingReferenceTarget templateId ref =>
    exact Or.inl ⟨_, rfl, rfl⟩
  | missingPipe templateId ast =>
    cases h : rec.resolver.toParseSourceSpan templateId ast.nameSpan with
    | none =>
      refine Or.inr
        ⟨("Assertion failure: no SourceLocation found for usage of pipe '" ++
            ast.name ++ "'."), ?_, ?_⟩ <;>
        simp [applyCall, OutOfBandDiagnosticRecorderImpl.missingPipe, emitted, h]
    | some s =>
      refine Or.inl
        ⟨makeTemplateDiagnostic templateId
            (rec.resolver.getSourceMapping templateId) s
            DiagnosticCategory.Error (ngErrorCode ErrorCode.MISSING_PIPE)
            ("No pipe found with name '" ++ ast.name ++ "'.") none, ?_, ?_⟩ <;>
        simp [applyCall, OutOfBandDiagnosticRecorderImpl.missingPipe, emitted, h]
  | illegalAssignmentToTemplateVar templateId assignment target =>
    cases h : rec.resolver.toParseSourceSpan templateId assignment.sourceSpan with
    | none =>
      refine Or.inr
        ⟨"Assertion failure: no SourceLocation found for property binding.",
          ?_, ?_⟩ <;>
        simp [applyCall,
          OutOfBandDiagnosticRecorderImpl.illegalAssignmentToTemplateVar,
          emitted, h]
    | some s =>
      refine Or.inl
        ⟨makeTemplateDiagnostic templateId
            (rec.resolver.getSourceMapping templateId) s
            DiagnosticCategory.Error
            (ngErrorCode ErrorCode.WRITE_TO_READ_ONLY_VARIABLE)
            ("Cannot use variable '" ++ assignment.name ++
              "' as the left-hand side of an assignment expression. Template variables are read-only.")
            (some
              { text := "The variable " ++ assignment.name ++
                  " is declared here."
                span := target.valueSpan.getD target.sourceSpan }), ?_, ?_⟩ <;>
        simp [applyCall,
          OutOfBandDiagnosticRecorderImpl.illegalAssignmentToTemplateVar,
          emitted, h]
  | duplicateTemplateVar templateId v firstDecl =>
    exact Or.inl ⟨_, rfl, rfl⟩
  | requiresInlineTcb templateId node =>
    exact Or.inl ⟨_, rfl, rfl⟩
  | requiresInlineTypeConstructors templateId node directives =>
    exact Or.inl ⟨_, rfl, rfl⟩

/-- The record a successful call appends carries the template id passed to
that call. -/
theorem emitted_templateId (res : TemplateSourceResolver) (c : OobCall)
    (d : TemplateDiagnostic) (h : emitted res c = some d) :
    d.templateId = c.templateIdOf := by
  cases c with
  | missingReferenceTarget templateId ref =>
    simp only [emitted, Option.some.injEq] at h
    subst h; rfl
  | missingPipe templateId ast =>
    cases hs : res.toParseSourceSpan templateId ast.nameSpan with
    | none => simp [emitted, hs] at h
    | some s =>
      simp only [emitted, hs, Option.map_some', Option.some.injEq] at h
      subst h; rfl
  | illegalAssignmentToTemplateVar templateId assignment target =>
    cases hs : res.toParseSourceSpan templateId assignment.sourceSpan with
    | none => simp [emitted, hs] at h
    | some s =>
      simp only [emitted, hs, Option.map_some', Option.some.injEq] at h
      subst h; rfl
  | duplicateTemplateVar templateId v firstDecl =>
    simp only [emitted, Option.some.injEq] at h
    subst h; rfl
  | requiresInlineTcb templateId node =>
    simp only [emitted, Option.some.injEq] at h
    subst h; rfl
  | requiresInlineTypeConstructors templateId node directives =>
    simp only [emitted, Option.some.injEq] at h
    subst h; rfl

/-- Running a sequence of calls preserves the resolver and appends, in call
order, exactly the records the calls emit. -/
theorem runCalls_spec (cs : List OobCall) :
    ∀ rec rec' : OutOfBandDiagnosticRecorderImpl,
      runCalls rec cs = Except.ok rec' →
        rec'.resolver = rec.resolver ∧
          ∃ ds, rec'._diagnostics = rec._diagnostics ++ ds ∧
            ds.map some = cs.map (emitted rec.resolver) := by
  induction cs with
  | nil =>
    intro rec rec' h
    simp only [runCalls, Except.ok.injEq] at h
    subst h
    exact ⟨rfl, [], (List.append_nil _).symm, rfl⟩
  | cons c cs ih =>
    intro rec rec' h
    rcases applyCall_cases rec c with ⟨d, hd, happ⟩ | ⟨e, he, happ⟩
    · simp only [runCalls, happ] at h
      obtain ⟨hres, ds, hdiag, hmap⟩ := ih _ rec' h
      refine ⟨hres, d :: ds, ?_, ?_⟩
      · rw [hdiag]
        simp [List.append_assoc]
      · rw [List.map_cons, List.map_cons, hd]
        exact congrArg (List.cons (some d)) hmap
    · simp only [runCalls, happ] at h
      exact absurd h (by simp)

/-! ### Concrete sample inputs, used by witnesses and counterexamples. -/

/-- A resolver that maps every template-relative span to a source span. -/
def res0 : TemplateSourceResolver :=
  { getSourceMapping := fun _ => 0
    toParseSourceSpan := fun _ a => some { start := a.start, stop := a.stop } }

/-- A resolver whose span translation is always absent. -/
def resAbsent : TemplateSourceResolver :=
  { getSourceMapping := fun _ => 0
    toParseSourceSpan := fun _ _ => none }

def span0 : ParseSourceSpan := { start := 0, stop := 4 }

def span1 : ParseSourceSpan := { start := 5, stop := 9 }

def abs0 : AbsoluteSourceSpan := { start := 2, stop := 6 }

def ref0 : TmplAstReference :=
  { value := "  foo  ", valueSpan := some span0, sourceSpan := span1 }

def pipe0 : BindingPipe := { name := "currency", nameSpan := abs0 }

def pw0 : PropertyWrite := { name := "x", sourceSpan := abs0 }

def var0 : TmplAstVariable :=
  { name := "y", valueSpan := some span0, sourceSpan := span1 }

def var1 : TmplAstVariable :=
  { name := "item", valueSpan := none, sourceSpan := span1 }

def cls0 : ClassDeclaration :=
  { name := "Comp", nameSpan := span0, sourceFile := "comp.ts" }

def cls1 : ClassDeclaration :=
  { name := "Dir1", nameSpan := span1, sourceFile := "dir.ts" }

/-- A sample sequence exercising four of the reporting operations. -/
def calls0 : List OobCall :=
  [OobCall.missingReferenceTarget "t1" ref0,
   OobCall.missingPipe "t2" pipe0,
   OobCall.duplicateTemplateVar "t3" var0 var1,
   OobCall.requiresInlineTypeConstructors "t4" cls0 [cls1]]

/-! ### The claims. -/

/-- C1: `missingPipe` and `illegalAssignmentToTemplateVar` raise an internal
fatal error exactly when the resolver's `toParseSourceSpan` translation of
the relevant span (the pipe's name span, resp. the assignment's span) is
absent; and whenever they raise, the diagnostics collection is unchanged. -/
theorem fatal_iff_span_absent (rec : OutOfBandDiagnosticRecorderImpl)
    (templateId : TemplateId) (ast : BindingPipe) (assignment : PropertyWrite)
    (target : TmplAstVariable) :
    ((∃ e, (rec.missingPipe templateId ast).1 = Except.error e) ↔
        rec.resolver.toParseSourceSpan templateId ast.nameSpan = none) ∧
      (∀ e, (rec.missingPipe templateId ast).1 = Except.error e →
        (rec.missingPipe templateId ast).2.diagnostics = rec.diagnostics) ∧
      ((∃ e, (rec.illegalAssignmentToTemplateVar templateId assignment
            target).1 = Except.error e) ↔
        rec.resolver.toParseSourceSpan templateId assignment.sourceSpan =
          none) ∧
      (∀ e, (rec.illegalAssignmentToTemplateVar templateId assignment
            target).1 = Except.error e →
        (rec.illegalAssignmentToTemplateVar templateId assignment
            target).2.diagnostics = rec.diagnostics) := by
  cases h1 : rec.resolver.toParseSourceSpan templateId ast.nameSpan <;>
    cases h2 : rec.resolver.toParseSourceSpan templateId
        assignment.sourceSpan <;>
    simp [OutOfBandDiagnosticRecorderImpl.missingPipe,
      OutOfBandDiagnosticRecorderImpl.illegalAssignmentToTemplateVar,
      OutOfBandDiagnosticRecorderImpl.diagnostics, h1, h2]

/-- C1 witness: with a resolver whose translation is absent, `missingPipe`
does raise. -/
theorem fatal_iff_span_absent_witness :
    ∃ e, ((mkRecorder resAbsent).missingPipe "tpl" pipe0).1 =
      Except.error e :=
  (fatal_iff_span_absent (mkRecorder resAbsent) "tpl" pipe0 pw0 var0).1.mpr
    rfl

/-- C2: the diagnostics collection is append-only and order-preserving: a
new recorder has no diagnostics, and after any successful sequence of N
reporting calls the previously accumulated records are unchanged and exactly
one record per call has been appended, in call order. -/
theorem diagnostics_append_only (res : TemplateSourceResolver)
    (rec rec' : OutOfBandDiagnosticRecorderImpl) (cs : List OobCall)
    (h : runCalls rec cs = Except.ok rec') :
    (mkRecorder res).diagnostics = [] ∧
      ∃ ds, rec'.diagnostics = rec.diagnostics ++ ds ∧
        ds.length = cs.length ∧
        ds.map some = cs.map (emitted rec.resolver) := by
  obtain ⟨hres, ds, hdiag, hmap⟩ := runCalls_spec cs rec rec' h
  refine ⟨rfl, ds, hdiag, ?_, hmap⟩
  have hlen := congrArg List.length hmap
  simpa using hlen

/-- C2 witness: a concrete run of four calls from a fresh recorder. -/
theorem diagnostics_append_only_witness :
    ∃ rec', runCalls (mkRecorder res0) calls0 = Except.ok rec' ∧
      ((mkRecorder res0).diagnostics = [] ∧
        ∃ ds, rec'.diagnostics = (mkRecorder res0).diagnostics ++ ds ∧
          ds.length = calls0.length ∧
          ds.map some = calls0.map (emitted (mkRecorder res0).resolver)) :=
  ⟨_, rfl, diagnostics_append_only res0 (mkRecorder res0) _ calls0 rfl⟩

/-- C3 counterexample: with the empty dependent-directive list the appended
record carries the singular wording, not the plural wording the claim
requires for every list whose length differs from one — the source tests
`directives.length > 1`, so the empty list falls into the singular branch. -/
theorem requiresInlineTypeConstructors_empty_list_singular :
    (((mkRecorder res0).requiresInlineTypeConstructors "tpl" cls0
          []).2.diagnostics.map TemplateDiagnostic.messageText =
        ["This component uses a directive which requires an inline type constructor, which is not supported by the current environment."]) ∧
      ("This component uses a directive which requires an inline type constructor, which is not supported by the current environment." ≠
        "This component uses directives which require inline type constructors, which are not supported by the current environment.") :=
  ⟨rfl, by decide⟩

/-- C3 amended: the appended record's message uses the singular wording when
the dependent-directive list has at most one element (the empty list
included) and the plural wording when it has more than one; the record
carries one secondary annotation per list element, each anchored at that
directive's own declaration location with message
`Requires an inline type constructor.`. -/
theorem requiresInlineTypeConstructors_message_and_annotations
    (rec : OutOfBandDiagnosticRecorderImpl) (templateId : TemplateId)
    (node : ClassDeclaration) (directives : List ClassDeclaration) :
    ∃ d, (rec.requiresInlineTypeConstructors templateId node
          directives).2.diagnostics = rec.diagnostics ++ [d] ∧
      (directives.length ≤ 1 →
        d.messageText =
          "This component uses a directive which requires an inline type constructor, which is not supported by the current environment.") ∧
      (1 < directives.length →
        d.messageText =
          "This component uses directives which require inline type constructors, which are not supported by the current environment.") ∧
      d.relatedInformation =
        directives.map
          (fun dir =>
            { text := "Requires an inline type constructor."
              span := dir.nameSpan }) := by
  refine ⟨_, rfl, ?_, ?_, ?_⟩
  · intro hle
    simp only [makeInlineDiagnostic]
    rw [if_neg]
    omega
  · intro hlt
    simp only [makeInlineDiagnostic]
    rw [if_pos hlt]
  · simp [makeInlineDiagnostic, makeRelatedInformation]

/-- C4: `missingReferenceTarget`, `duplicateTemplateVar`, `requiresInlineTcb`
and `requiresInlineTypeConstructors` always succeed — no exceptional control
flow — and each call appends exactly one record. -/
theorem four_reporting_ops_total (rec : OutOfBandDiagnosticRecorderImpl)
    (templateId : TemplateId) (ref : TmplAstReference)
    (v firstDecl : TmplAstVariable) (node : ClassDeclaration)
    (directives : List ClassDeclaration) :
    ((rec.missingReferenceTarget templateId ref).1 = Except.ok () ∧
        ∃ d, (rec.missingReferenceTarget templateId ref).2.diagnostics =
          rec.diagnostics ++ [d]) ∧
      ((rec.duplicateTemplateVar templateId v firstDecl).1 = Except.ok () ∧
        ∃ d, (rec.duplicateTemplateVar templateId v firstDecl).2.diagnostics =
          rec.diagnostics ++ [d]) ∧
      ((rec.requiresInlineTcb templateId node).1 = Except.ok () ∧
        ∃ d, (rec.requiresInlineTcb templateId node).2.diagnostics =
          rec.diagnostics ++ [d]) ∧
      ((rec.requiresInlineTypeConstructors templateId node directives).1 =
          Except.ok () ∧
        ∃ d, (rec.requiresInlineTypeConstructors templateId node
            directives).2.diagnostics = rec.diagnostics ++ [d]) :=
  ⟨⟨rfl, _, rfl⟩, ⟨rfl, _, rfl⟩, ⟨rfl, _, rfl⟩, ⟨rfl, _, rfl⟩⟩

/-- C5: `missingReferenceTarget` appends a record whose message interpolates
the reference's raw value with surrounding whitespace trimmed and whose
primary anchor is the value span when present, else the full span. -/
theorem missingReferenceTarget_message_and_anchor
    (rec : OutOfBandDiagnosticRecorderImpl) (templateId : TemplateId)
    (ref : TmplAstReference) :
    ∃ d, (rec.missingReferenceTarget templateId ref).2.diagnostics =
        rec.diagnostics ++ [d] ∧
      d.messageText =
        "No directive found with exportAs '" ++ ref.value.trim ++ "'." ∧
      d.span = ref.valueSpan.getD ref.sourceSpan :=
  ⟨_, rfl, rfl, rfl⟩

/-- C6: every record `illegalAssignmentToTemplateVar` appends carries exactly
one secondary annotation, anchored at the target variable's value span when
present, else at its declaration span. -/
theorem illegalAssignment_secondary_anchor
    (rec : OutOfBandDiagnosticRecorderImpl) (templateId : TemplateId)
    (assignment : PropertyWrite) (target : TmplAstVariable)
    (h : (rec.illegalAssignmentToTemplateVar templateId assignment target).1 =
      Except.ok ()) :
    ∃ d, (rec.illegalAssignmentToTemplateVar templateId assignment
          target).2.diagnostics = rec.diagnostics ++ [d] ∧
      d.relatedInformation.length = 1 ∧
      ∀ ri ∈ d.relatedInformation,
        ri.span = target.valueSpan.getD target.sourceSpan := by
  cases hs : rec.resolver.toParseSourceSpan templateId assignment.sourceSpan with
  | none =>
    rw [OutOfBandDiagnosticRecorderImpl.illegalAssignmentToTemplateVar] at h
    simp only [hs] at h
    exact absurd h (by simp)
  | some s =>
    refine ⟨makeTemplateDiagnostic templateId
        (rec.resolver.getSourceMapping templateId) s DiagnosticCategory.Error
        (ngErrorCode ErrorCode.WRITE_TO_READ_ONLY_VARIABLE)
        ("Cannot use variable '" ++ assignment.name ++
          "' as the left-hand side of an assignment expression. Template variables are read-only.")
        (some
          { text := "The variable " ++ assignment.name ++ " is declared here."
            span := target.valueSpan.getD target.sourceSpan }), ?_, ?_, ?_⟩ <;>
      simp [OutOfBandDiagnosticRecorderImpl.illegalAssignmentToTemplateVar,
        OutOfBandDiagnosticRecorderImpl.diagnostics, hs,
        makeTemplateDiagnostic]

/-- C6 witness: a concrete successful illegal-write report, one annotation at
the target's value span. -/
theorem illegalAssignment_secondary_anchor_witness :
    ∃ d, (((mkRecorder res0).illegalAssignmentToTemplateVar "tpl" pw0
          var0).2.diagnostics = (mkRecorder res0).diagnostics ++ [d]) ∧
      d.relatedInformation.length = 1 ∧
      ∀ ri ∈ d.relatedInformation,
        ri.span = var0.valueSpan.getD var0.sourceSpan :=
  illegalAssignment_secondary_anchor (mkRecorder res0) "tpl" pw0 var0 rfl

/-- C7: `duplicateTemplateVar` appends a record with the redeclaration
message for the variable's name, anchored at the variable's own declaration
span with no resolver translation (the anchor equation holds for every
resolver), and one secondary annotation at the first declaration's own span
with the first-declared message for its name. -/
theorem duplicateTemplateVar_message_and_anchor
    (rec : OutOfBandDiagnosticRecorderImpl) (templateId : TemplateId)
    (v firstDecl : TmplAstVariable) :
    ∃ d, (rec.duplicateTemplateVar templateId v firstDecl).2.diagnostics =
        rec.diagnostics ++ [d] ∧
      d.messageText =
        "Cannot redeclare variable '" ++ v.name ++
          "' as it was previously declared elsewhere for the same template." ∧
      d.span = v.sourceSpan ∧
      d.relatedInformation =
        [{ text := "The variable '" ++ firstDecl.name ++
              "' was first declared here."
           span := firstDecl.sourceSpan }] :=
  ⟨_, rfl, rfl, rfl, rfl⟩

/-- C8: whichever of the six reporting operations is called, a record it
appends carries the template id passed to that call. -/
theorem appended_record_templateId (rec : OutOfBandDiagnosticRecorderImpl)
    (c : OobCall) :
    (applyCall rec c).2.diagnostics = rec.diagnostics ∨
      ∃ d, (applyCall rec c).2.diagnostics = rec.diagnostics ++ [d] ∧
        d.templateId = c.templateIdOf := by
  rcases applyCall_cases rec c with ⟨d, hd, happ⟩ | ⟨e, he, happ⟩
  · right
    exact ⟨d, by rw [happ]; exact rfl, emitted_templateId rec.resolver c d hd⟩
  · left
    rw [happ]

/-- C9: `requiresInlineTcb` appends a record with a fixed message text,
anchored at the declaring class's own declaration location, and consults no
resolver operation: the outcome and the appended record are identical for
any two resolvers. -/
theorem requiresInlineTcb_fixed_message_no_resolver
    (res res2 : TemplateSourceResolver) (ds : List TemplateDiagnostic)
    (templateId : TemplateId) (node : ClassDeclaration) :
    ∃ d,
      (({ resolver := res, _diagnostics := ds } :
          OutOfBandDiagnosticRecorderImpl).requiresInlineTcb templateId
          node).2.diagnostics = ds ++ [d] ∧
      d.messageText =
        "This component requires inline template type-checking, which is not supported by the current environment." ∧
      d.span = node.nameSpan ∧
      (({ resolver := res2, _diagnostics := ds } :
          OutOfBandDiagnosticRecorderImpl).requiresInlineTcb templateId
          node).1 =
        (({ resolver := res, _diagnostics := ds } :
          OutOfBandDiagnosticRecorderImpl).requiresInlineTcb templateId
          node).1 ∧
      (({ resolver := res2, _diagnostics := ds } :
          OutOfBandDiagnosticRecorderImpl).requiresInlineTcb templateId
          node).2.diagnostics = ds ++ [d] :=
  ⟨_, rfl, rfl, rfl, rfl, rfl⟩

/-- C10: the secondary annotation of `illegalAssignmentToTemplateVar` names
the assignment expression's target, without quotes: its text is
`The variable <assignment name> is declared here.`, also when that name
differs from the target variable's own name. -/
theorem illegalAssignment_annotation_text
    (rec : OutOfBandDiagnosticRecorderImpl) (templateId : TemplateId)
    (assignment : PropertyWrite) (target : TmplAstVariable)
    (h : (rec.illegalAssignmentToTemplateVar templateId assignment target).1 =
      Except.ok ()) :
    ∃ d, (rec.illegalAssignmentToTemplateVar templateId assignment
          target).2.diagnostics = rec.diagnostics ++ [d] ∧
      d.relatedInformation.map RelatedInfo.text =
        ["The variable " ++ assignment.name ++ " is declared here."] := by
  cases hs : rec.resolver.toParseSourceSpan templateId assignment.sourceSpan with
  | none =>
    rw [OutOfBandDiagnosticRecorderImpl.illegalAssignmentToTemplateVar] at h
    simp only [hs] at h
    exact absurd h (by simp)
  | some s =>
    refine ⟨makeTemplateDiagnostic templateId
        (rec.resolver.getSourceMapping templateId) s DiagnosticCategory.Error
        (ngErrorCode ErrorCode.WRITE_TO_READ_ONLY_VARIABLE)
        ("Cannot use variable '" ++ assignment.name ++
          "' as the left-hand side of an assignment expression. Template variables are read-only.")
        (some
          { text := "The variable " ++ assignment.name ++ " is declared here."
            span := target.valueSpan.getD target.sourceSpan }), ?_, ?_⟩ <;>
      simp [OutOfBandDiagnosticRecorderImpl.illegalAssignmentToTemplateVar,
        OutOfBandDiagnosticRecorderImpl.diagnostics, hs,
        makeTemplateDiagnostic]

/-- C10 witness: a concrete report where the assignment's target name differs
from the target variable's name; the annotation names the assignment's
target. -/
theorem illegalAssignment_annotation_text_witness :
    pw0.name ≠ var0.name ∧
      ∃ d, (((mkRecorder res0).illegalAssignmentToTemplateVar "tpl" pw0
            var0).2.diagnostics = (mkRecorder res0).diagnostics ++ [d]) ∧
        d.relatedInformation.map RelatedInfo.text =
          ["The variable " ++ pw0.name ++ " is declared here."] :=
  ⟨by decide,
    illegalAssignment_annotation_text (mkRecorder res0) "tpl" pw0 var0 rfl⟩

end Oob
